import Mathlib

/-!
Verification of the DaxStudio build orchestrator script (`build.py`).

The script is a command-dispatch build orchestrator: `main` reads the
command-line arguments, routes to one of five operations
(build / rebuild / restore / test / run), and each operation constructs
and executes external tool commands (MSBuild, vstest.console) in a fixed
working directory, with an artifact-existence fallback that builds on
demand before `test` and `run`.

We embed the script shallowly: external-process results (exit codes) and
filesystem artifact presence are inputs in an `Env`; each function returns
the ordered trace of observable events (printed lines, blocking process
runs, detached launches) together with the `sys.exit` outcome.
-/

namespace BuildScript

/-- Constant `MSBUILD` from build.py (path of the build driver). -/
def MSBUILD : String :=
  "C:\\Program Files\\Microsoft Visual Studio\\2022\\Enterprise\\MSBuild\\Current\\Bin\\MSBuild.exe"

/-- Constant `VSTEST` from build.py (path of the test runner). -/
def VSTEST : String :=
  "C:\\Program Files\\Microsoft Visual Studio\\2022\\Enterprise\\Common7\\IDE\\CommonExtensions\\Microsoft\\TestWindow\\vstest.console.exe"

/-- Constant `REPO_ROOT = os.path.dirname(os.path.abspath(__file__))`: the directory
holding the script. Its concrete value is environment-dependent; we fix a
representative value, claims only compare paths built from it. -/
def REPO_ROOT : String := "C:\\DaxStudio"

/-- Constant `TEST_PROJECT = os.path.join(REPO_ROOT, "tests", "DaxStudio.Tests", "DaxStudio.Tests.csproj")`. -/
def TEST_PROJECT : String := REPO_ROOT ++ "\\tests\\DaxStudio.Tests\\DaxStudio.Tests.csproj"

/-- Constant `TEST_DLL = os.path.join(REPO_ROOT, "src", "bin", "Debug", "DaxStudio.Tests.dll")`. -/
def TEST_DLL : String := REPO_ROOT ++ "\\src\\bin\\Debug\\DaxStudio.Tests.dll"

/-- Constant `EXE_PATH = os.path.join(REPO_ROOT, "src", "bin", "Debug", "DaxStudio.exe")`. -/
def EXE_PATH : String := REPO_ROOT ++ "\\src\\bin\\Debug\\DaxStudio.exe"

/-- The module docstring `__doc__`, printed as usage text. -/
def USAGE : String :=
  "\nDaxStudio Build Script\nUsage:\n    python build.py build          - Build the test project\n    python build.py test           - Run all Visual Query Plan tests\n    python build.py test <filter>  - Run tests matching filter\n    python build.py run            - Launch DaxStudio\n    python build.py rebuild        - Clean rebuild of test project\n    python build.py restore        - Restore NuGet packages\n"

/-- Observable events: a printed line, a blocking external process run
(`subprocess.run(args, cwd=...)`), or a detached launch
(`subprocess.Popen(args, cwd=...)`). -/
inductive Event where
  | out (line : String)
  | run (args : List String) (cwd : String)
  | popen (args : List String) (cwd : String)
deriving Repr, DecidableEq

/-- The environment the script cannot control: artifact presence on disk
before the script starts, whether a build produces the test DLL, and the
exit codes the external tools return when invoked. -/
structure Env where
  /-- Value of `os.path.exists(TEST_DLL)` before any build ran. -/
  testDllExists0 : Bool
  /-- Value of `os.path.exists(TEST_DLL)` after a build ran. -/
  testDllExistsAfterBuild : Bool
  /-- Value of `os.path.exists(EXE_PATH)`. -/
  exeExists0 : Bool
  /-- Exit code returned by any MSBuild invocation. -/
  msbuildExit : Nat
  /-- Exit code returned by the vstest.console invocation. -/
  vstestExit : Nat
deriving Repr, DecidableEq

/-- Function `run_cmd(args, check=True)` of build.py: prints the command line, runs the process
in `REPO_ROOT`, and — when `check` and a nonzero return code — calls
`sys.exit(returncode)`. The subprocess return code `retcode` is an input
(the external tool is opaque). Returns the emitted events and
`some code` when `sys.exit(code)` was called, `none` otherwise. -/
def runCmd (args : List String) (retcode : Nat) (check : Bool := true) :
    List Event × Option Nat :=
  ([Event.out (">>> " ++ String.intercalate " " args), Event.run args REPO_ROOT],
   if check && retcode != 0 then some retcode else none)

/-- The argument vector of the `build()` / MSBuild `-t:Build` command. -/
def buildCmdArgs : List String :=
  [MSBUILD, TEST_PROJECT, "-t:Build", "-p:Configuration=Debug", "-v:minimal", "-m"]

/-- The argument vector of the `rebuild()` / MSBuild `-t:Rebuild` command. -/
def rebuildCmdArgs : List String :=
  [MSBUILD, TEST_PROJECT, "-t:Rebuild", "-p:Configuration=Debug", "-v:minimal", "-m"]

/-- The argument vector of the `restore()` / MSBuild `-t:Restore` command. -/
def restoreCmdArgs : List String :=
  [MSBUILD, TEST_PROJECT, "-t:Restore", "-p:Configuration=Debug", "-v:minimal"]

/-- Function `build()`: one checked run of MSBuild with target `Build`. -/
def build (env : Env) : List Event × Option Nat :=
  runCmd buildCmdArgs env.msbuildExit

/-- Function `rebuild()`: one checked run of MSBuild with target `Rebuild`. -/
def rebuild (env : Env) : List Event × Option Nat :=
  runCmd rebuildCmdArgs env.msbuildExit

/-- Function `restore()`: one checked run of MSBuild with target `Restore`. -/
def restore (env : Env) : List Event × Option Nat :=
  runCmd restoreCmdArgs env.msbuildExit

/-- The test-runner argument vector constructed by `test(filter_pattern)`:
`[VSTEST, TEST_DLL]`, then the filter flag — the literal filter when
`filter_pattern` is truthy in Python (present and nonempty), the default
category filter otherwise — then the console logger flag. -/
def testRunnerArgs (filter_pattern : Option String) : List String :=
  [VSTEST, TEST_DLL] ++
    (match filter_pattern with
     | some s =>
        if s.isEmpty then
          ["--TestCaseFilter:FullyQualifiedName~VisualQueryPlan"]
        else
          ["--TestCaseFilter:" ++ s]
     | none => ["--TestCaseFilter:FullyQualifiedName~VisualQueryPlan"]) ++
    ["--logger:console;verbosity=minimal"]

/-- The lines printed by `test()` when the DLL is still missing after a
build was attempted, before `sys.exit(1)`. -/
def missingDllError : List Event :=
  [Event.out ("\n" ++ String.mk (List.replicate 60 (Char.ofNat 61))),
   Event.out "ERROR: Build completed but test DLL was not created.",
   Event.out ("Expected location: " ++ TEST_DLL),
   Event.out "\nPossible causes:",
   Event.out "  1. Build failed with errors (check output above)",
   Event.out "  2. Output path configuration differs from expected",
   Event.out ("\nTry running \x27python build.py rebuild\x27 for a clean build."),
   Event.out (String.mk (List.replicate 60 (Char.ofNat 61)))]

/-- Function `test(filter_pattern)`: if the test DLL is missing, print a notice and
run `build()` (which may `sys.exit` on a nonzero MSBuild code); re-check
the DLL and `sys.exit(1)` with an error banner when still missing;
otherwise execute the test runner with `check=False` (its exit code is
never propagated). -/
def test (env : Env) (filter_pattern : Option String) : List Event × Option Nat :=
  if env.testDllExists0 = false then
    let pre := [Event.out ("Test DLL not found at: " ++ TEST_DLL),
                Event.out "Building test project..."]
    let b := build env
    match b.2 with
    | some code => (pre ++ b.1, some code)
    | none =>
      if env.testDllExistsAfterBuild = false then
        (pre ++ b.1 ++ missingDllError, some 1)
      else
        let r := runCmd (testRunnerArgs filter_pattern) env.vstestExit false
        (pre ++ b.1 ++ r.1, r.2)
  else
    let r := runCmd (testRunnerArgs filter_pattern) env.vstestExit false
    (r.1, r.2)

/-- Function `run_app()`: if `EXE_PATH` is missing, print a notice and run
`build()` (which may `sys.exit`); then launch the exe detached via
`subprocess.Popen([EXE_PATH], cwd=REPO_ROOT)` and report the path. -/
def run_app (env : Env) : List Event × Option Nat :=
  if env.exeExists0 = false then
    let pre := [Event.out "DaxStudio.exe not found, building first..."]
    let b := build env
    match b.2 with
    | some code => (pre ++ b.1, some code)
    | none =>
      (pre ++ b.1 ++
         [Event.popen [EXE_PATH] REPO_ROOT, Event.out ("Launched: " ++ EXE_PATH)], none)
  else
    ([Event.popen [EXE_PATH] REPO_ROOT, Event.out ("Launched: " ++ EXE_PATH)], none)

/-- Python `str.lower()` on the action argument (`sys.argv[1].lower()`):
character-wise lowercasing. -/
def pyLower (s : String) : String := String.mk (s.data.map Char.toLower)

/-- A finished operation: `sys.exit(code)` gives process exit `code`;
falling off the end of `main` gives process exit 0. -/
def finish (r : List Event × Option Nat) : List Event × Nat :=
  (r.1, r.2.getD 0)

/-- Function `main()`: reads `argv` (program name first). With fewer than two
elements, prints usage and exits 1. Otherwise lowercases `argv[1]` and
dispatches to the matching operation — `test` additionally receives
`argv[2]` as filter when present — or prints an unknown-command message
plus usage and exits 1. Returns the event trace and the process exit code. -/
def main (env : Env) (argv : List String) : List Event × Nat :=
  match argv with
  | _ :: arg1 :: rest =>
    let cmd := pyLower arg1
    if cmd = "build" then finish (build env)
    else if cmd = "rebuild" then finish (rebuild env)
    else if cmd = "restore" then finish (restore env)
    else if cmd = "test" then
      let filter_pattern : Option String :=
        match rest with
        | f :: _ => some f
        | [] => none
      finish (test env filter_pattern)
    else if cmd = "run" then finish (run_app env)
    else ([Event.out ("Unknown command: " ++ cmd), Event.out USAGE], 1)
  | _ => ([Event.out USAGE], 1)

/-- The blocking external-process invocations of a trace, in order. -/
def execs (t : List Event) : List (List String) :=
  t.filterMap fun e =>
    match e with
    | Event.run a _ => some a
    | _ => none

/-- The detached launches of a trace, in order. -/
def popens (t : List Event) : List (List String) :=
  t.filterMap fun e =>
    match e with
    | Event.popen a _ => some a
    | _ => none

/-- Does an argument vector invoke the build driver? -/
def isMSBuildCmd (a : List String) : Bool := a.head? = some MSBUILD

/-- Does an argument vector invoke the test runner? -/
def isVstestCmd (a : List String) : Bool := a.head? = some VSTEST

/-- An environment where both artifacts exist and all tools succeed. -/
def envTestReady : Env :=
  { testDllExists0 := true, testDllExistsAfterBuild := true, exeExists0 := true,
    msbuildExit := 0, vstestExit := 0 }

/-- An environment with both artifacts missing and a failing build tool
(exit code 2). -/
def envNoArtifacts : Env :=
  { testDllExists0 := false, testDllExistsAfterBuild := false, exeExists0 := false,
    msbuildExit := 2, vstestExit := 0 }

/-- An environment with both artifacts missing, a succeeding build that
does produce the test DLL, and a test runner reporting failures (exit 3). -/
def envBuildHeals : Env :=
  { testDllExists0 := false, testDllExistsAfterBuild := true, exeExists0 := false,
    msbuildExit := 0, vstestExit := 3 }

/-- An environment where the test DLL is absent, the build tool succeeds
(exit 0), and yet the DLL still does not exist after the build. -/
def envStubbornMiss : Env :=
  { testDllExists0 := false, testDllExistsAfterBuild := false, exeExists0 := true,
    msbuildExit := 0, vstestExit := 0 }

/-- An environment where the artifacts exist but the test runner reports
failing tests (exit code 3). -/
def envTestsFail : Env :=
  { testDllExists0 := true, testDllExistsAfterBuild := true, exeExists0 := true,
    msbuildExit := 0, vstestExit := 3 }

theorem char_toNat_ofNat_valid (n : Nat) (h : n.isValidChar) :
    (Char.ofNat n).toNat = n := by
  simp [Char.ofNat, h, Char.ofNatAux, Char.toNat, UInt32.toNat]

theorem char_toLower_idem (c : Char) : c.toLower.toLower = c.toLower := by
  by_cases h : c.toNat ≥ 65 ∧ c.toNat ≤ 90
  · have hv : Nat.isValidChar (c.toNat + 32) := Or.inl (by omega)
    have ht : (Char.ofNat (c.toNat + 32)).toNat = c.toNat + 32 :=
      char_toNat_ofNat_valid _ hv
    simp only [Char.toLower, if_pos h, ht]
    rw [if_neg (by omega)]
  · simp only [Char.toLower, if_neg h]

theorem pyLower_idem (s : String) : pyLower (pyLower s) = pyLower s := by
  simp [pyLower, List.map_map, Function.comp_def, char_toLower_idem]

theorem pyLower_build : pyLower "build" = "build" := rfl

theorem pyLower_rebuild : pyLower "rebuild" = "rebuild" := rfl

theorem pyLower_restore : pyLower "restore" = "restore" := rfl

theorem pyLower_test : pyLower "test" = "test" := rfl

theorem pyLower_runword : pyLower "run" = "run" := rfl

theorem pyLower_upperBUILD : pyLower "BUILD" = "build" := rfl

theorem pyLower_mixedBuild : pyLower "Build" = "build" := rfl

theorem finish_runCmd_exit (a : List String) (r : Nat) :
    (finish (runCmd a r)).2 = r := by
  by_cases h : r = 0 <;> simp [finish, runCmd, h]

theorem testRunnerArgs_empty_eq_none : testRunnerArgs (some "") = testRunnerArgs none := rfl

end BuildScript

namespace BuildScript

/-- C1: for `test` and `run`, when the artifact-absence check triggers a
prerequisite build and the build tool of which exits nonzero, the process exits
with exactly that build exit code, and the test-runner invocation (for
`test`) respectively the application launch (for `run`) never happens. -/
theorem prereqBuildFailure_aborts (env : Env) (p : String) (rest : List String)
    (hdll : env.testDllExists0 = false) (hexe : env.exeExists0 = false)
    (hb : env.msbuildExit ≠ 0) :
    ((main env (p :: "test" :: rest)).2 = env.msbuildExit ∧
      (execs (main env (p :: "test" :: rest)).1).countP isVstestCmd = 0) ∧
    ((main env (p :: "run" :: rest)).2 = env.msbuildExit ∧
      popens (main env (p :: "run" :: rest)).1 = []) := by
  refine ⟨⟨?_, ?_⟩, ?_, ?_⟩
  · simp [main, pyLower_test, test, hdll, hb, build, runCmd, finish]
  · simp [main, pyLower_test, test, hdll, hb, build, runCmd, finish, execs,
      List.countP, List.countP.go, isVstestCmd, buildCmdArgs, MSBUILD, VSTEST]
  · simp [main, pyLower_runword, run_app, hexe, hb, build, runCmd, finish]
  · simp [main, pyLower_runword, run_app, hexe, hb, build, runCmd, finish, popens]

/-- Witness for C1 at a concrete input: both artifacts absent and the
build tool failing with exit code 2. -/
theorem prereqBuildFailure_aborts_witness :
    envNoArtifacts.testDllExists0 = false ∧ envNoArtifacts.exeExists0 = false ∧
    envNoArtifacts.msbuildExit ≠ 0 ∧
    (main envNoArtifacts ["build.py", "test"]).2 = 2 ∧
    (execs (main envNoArtifacts ["build.py", "test"]).1).countP isVstestCmd = 0 ∧
    (main envNoArtifacts ["build.py", "run"]).2 = 2 ∧
    popens (main envNoArtifacts ["build.py", "run"]).1 = [] := by
  have h := prereqBuildFailure_aborts envNoArtifacts "build.py" [] rfl rfl (by decide)
  exact ⟨rfl, rfl, by decide, h.1.1, h.1.2, h.2.1, h.2.2⟩

/-- C2: in the `test` operation, if the test artifact exists no build-tool
invocation occurs (the only execution is the test runner); if it does not
exist, exactly one build-tool invocation occurs and it is the first
external execution, hence before any test-runner invocation. -/
theorem test_prereqBuild_count (env : Env) (fp : Option String) :
    (env.testDllExists0 = true →
       execs (test env fp).1 = [testRunnerArgs fp] ∧
       (execs (test env fp).1).countP isMSBuildCmd = 0) ∧
    (env.testDllExists0 = false →
       (execs (test env fp).1).countP isMSBuildCmd = 1 ∧
       ∃ rest, execs (test env fp).1 = buildCmdArgs :: rest ∧
         rest.countP isMSBuildCmd = 0) := by
  constructor
  · intro h
    constructor
    · simp [test, h, runCmd, execs]
    · simp [test, h, runCmd, execs, List.countP, List.countP.go, isMSBuildCmd,
        testRunnerArgs, VSTEST, MSBUILD]
  · intro h
    by_cases hb : env.msbuildExit = 0
    · by_cases hd : env.testDllExistsAfterBuild = false
      · refine ⟨?_, [], ?_, ?_⟩ <;>
          simp [test, h, hb, hd, build, runCmd, execs, missingDllError,
            List.countP, List.countP.go, isMSBuildCmd, buildCmdArgs]
      · rw [Bool.not_eq_false] at hd
        refine ⟨?_, [testRunnerArgs fp], ?_, ?_⟩ <;>
          simp [test, h, hb, hd, build, runCmd, execs,
            List.countP, List.countP.go, isMSBuildCmd, buildCmdArgs,
            testRunnerArgs, VSTEST, MSBUILD]
    · refine ⟨?_, [], ?_, ?_⟩ <;>
        simp [test, h, hb, build, runCmd, execs,
          List.countP, List.countP.go, isMSBuildCmd, buildCmdArgs]

/-- Witness for C2 at concrete inputs: an environment with the artifact
present (zero build invocations) and one with it absent (one build
invocation, first). -/
theorem test_prereqBuild_count_witness :
    ((execs (test envTestReady none).1).countP isMSBuildCmd = 0 ∧
      (execs (test envNoArtifacts none).1).countP isMSBuildCmd = 1) := by
  exact ⟨((test_prereqBuild_count envTestReady none).1 rfl).2,
    ((test_prereqBuild_count envNoArtifacts none).2 rfl).1⟩

/-- C3: a nonzero test-runner exit code is non-fatal: whenever the runner
is reached (artifact present, or prerequisite build succeeded and produced
it), the process exit code is 0 — not the code of the runner, which is left
arbitrary here — and exactly one test-runner invocation occurred. -/
theorem test_runner_failure_nonfatal (env : Env) (p : String) (rest : List String)
    (h : env.testDllExists0 = true ∨
         (env.msbuildExit = 0 ∧ env.testDllExistsAfterBuild = true)) :
    (main env (p :: "test" :: rest)).2 = 0 ∧
    (execs (main env (p :: "test" :: rest)).1).countP isVstestCmd = 1 := by
  rcases h with h | ⟨hb, hd⟩
  · constructor <;>
      simp [main, pyLower_test, test, h, runCmd, finish, execs,
        List.countP, List.countP.go, isVstestCmd, testRunnerArgs]
  · by_cases h0 : env.testDllExists0 = true
    · constructor <;>
        simp [main, pyLower_test, test, h0, runCmd, finish, execs,
          List.countP, List.countP.go, isVstestCmd, testRunnerArgs]
    · rw [Bool.not_eq_true] at h0
      constructor <;>
        simp [main, pyLower_test, test, h0, hb, hd, build, runCmd, finish, execs,
          List.countP, List.countP.go, isVstestCmd, testRunnerArgs,
          buildCmdArgs, MSBUILD, VSTEST]

/-- Witness for C3 at concrete inputs: artifact present with the runner
returning 3, and artifact absent with a healing build and the runner
returning 3 — both complete with process exit 0. -/
theorem test_runner_failure_nonfatal_witness :
    envTestsFail.vstestExit = 3 ∧ (main envTestsFail ["build.py", "test"]).2 = 0 ∧
    envBuildHeals.vstestExit = 3 ∧ (main envBuildHeals ["build.py", "test"]).2 = 0 := by
  exact ⟨rfl,
    (test_runner_failure_nonfatal envTestsFail "build.py" [] (Or.inl rfl)).1,
    rfl,
    (test_runner_failure_nonfatal envBuildHeals "build.py" [] (Or.inr ⟨rfl, rfl⟩)).1⟩

/-- C4: for `build`, `rebuild` and `restore` the process exit code equals
the external build tool exit code (nonzero aborts with that code, zero
falls through to exit 0), and in every case exactly the one corresponding
tool command is executed — no further steps are attempted. In particular
`rebuild` with tool exit 2 yields overall exit 2. -/
theorem buildOps_propagate_exit (env : Env) (p : String) (rest : List String) :
    (main env (p :: "build" :: rest)).2 = env.msbuildExit ∧
    execs (main env (p :: "build" :: rest)).1 = [buildCmdArgs] ∧
    (main env (p :: "rebuild" :: rest)).2 = env.msbuildExit ∧
    execs (main env (p :: "rebuild" :: rest)).1 = [rebuildCmdArgs] ∧
    (main env (p :: "restore" :: rest)).2 = env.msbuildExit ∧
    execs (main env (p :: "restore" :: rest)).1 = [restoreCmdArgs] := by
  refine ⟨?_, ?_, ?_, ?_, ?_, ?_⟩
  · simp [main, pyLower_build, build, finish_runCmd_exit]
  · simp [main, pyLower_build, build, finish, runCmd, execs]
  · simp [main, pyLower_rebuild, rebuild, finish_runCmd_exit]
  · simp [main, pyLower_rebuild, rebuild, finish, runCmd, execs]
  · simp [main, pyLower_restore, restore, finish_runCmd_exit]
  · simp [main, pyLower_restore, restore, finish, runCmd, execs]

end BuildScript

namespace BuildScript

/-- C5 counterexample: supplying the empty string as a filter argument to
`test` does not append a filter flag with that literal value — the default
category filter is appended instead (the claim says the default is never
appended when a filter argument is supplied). -/
theorem test_filter_flag_counterexample :
    execs (main envTestReady ["build.py", "test", ""]).1 =
      [[VSTEST, TEST_DLL, "--TestCaseFilter:FullyQualifiedName~VisualQueryPlan",
        "--logger:console;verbosity=minimal"]] ∧
    "--TestCaseFilter:FullyQualifiedName~VisualQueryPlan" ∈ testRunnerArgs (some "") ∧
    "--TestCaseFilter:" ∉ testRunnerArgs (some "") := by
  refine ⟨rfl, by decide, by decide⟩

/-- C5 (amended): with no filter argument the default category filter flag
is appended; with a nonempty filter argument a flag with that literal
value is appended and the default is not (the constructed vector contains
exactly the literal filter flag). -/
theorem test_filter_flag (env : Env) (p f : String) (rest : List String)
    (hdll : env.testDllExists0 = true) (hf : f ≠ "") :
    testRunnerArgs none =
      [VSTEST, TEST_DLL, "--TestCaseFilter:FullyQualifiedName~VisualQueryPlan",
       "--logger:console;verbosity=minimal"] ∧
    testRunnerArgs (some f) =
      [VSTEST, TEST_DLL, "--TestCaseFilter:" ++ f,
       "--logger:console;verbosity=minimal"] ∧
    execs (main env [p, "test"]).1 =
      [[VSTEST, TEST_DLL, "--TestCaseFilter:FullyQualifiedName~VisualQueryPlan",
        "--logger:console;verbosity=minimal"]] ∧
    execs (main env (p :: "test" :: f :: rest)).1 =
      [[VSTEST, TEST_DLL, "--TestCaseFilter:" ++ f,
        "--logger:console;verbosity=minimal"]] := by
  have hne : f.isEmpty = false := by
    rw [Bool.eq_false_iff]
    simpa [String.isEmpty_iff] using hf
  refine ⟨rfl, ?_, ?_, ?_⟩
  · simp [testRunnerArgs, hne]
  · simp [main, pyLower_test, test, hdll, runCmd, finish, execs, testRunnerArgs]
  · simp [main, pyLower_test, test, hdll, runCmd, finish, execs, testRunnerArgs, hne]

end BuildScript

namespace BuildScript

/-- Witness for C5 (amended) at a concrete input: filter `"MyCase"` with
the artifact present. -/
theorem test_filter_flag_witness :
    envTestReady.testDllExists0 = true ∧ "MyCase" ≠ "" ∧
    execs (main envTestReady ["build.py", "test", "MyCase"]).1 =
      [[VSTEST, TEST_DLL, "--TestCaseFilter:" ++ "MyCase",
        "--logger:console;verbosity=minimal"]] := by
  exact ⟨rfl, by decide,
    (test_filter_flag envTestReady "build.py" "MyCase" [] rfl (by decide)).2.2.2⟩

/-- C6: in `test`, when the artifact was absent, the prerequisite build
succeeded, and the artifact still does not exist afterwards, the process
exits fatally with code 1, prints a distinct error message, and the test
runner is never invoked. -/
theorem test_dllStillMissing_fatal (env : Env) (p : String) (rest : List String)
    (h1 : env.testDllExists0 = false) (h2 : env.msbuildExit = 0)
    (h3 : env.testDllExistsAfterBuild = false) :
    (test env none).2 = some 1 ∧
    (main env (p :: "test" :: rest)).2 = 1 ∧
    (execs (main env (p :: "test" :: rest)).1).countP isVstestCmd = 0 ∧
    Event.out "ERROR: Build completed but test DLL was not created." ∈
      (main env (p :: "test" :: rest)).1 := by
  refine ⟨?_, ?_, ?_, ?_⟩ <;>
    simp [main, pyLower_test, test, h1, h2, h3, build, runCmd, finish, execs,
      missingDllError, List.countP, List.countP.go, isVstestCmd,
      buildCmdArgs, MSBUILD, VSTEST]

/-- Witness for C6 at a concrete input: artifact absent, build succeeding
with exit 0 but not producing the DLL. -/
theorem test_dllStillMissing_fatal_witness :
    envStubbornMiss.testDllExists0 = false ∧ envStubbornMiss.msbuildExit = 0 ∧
    envStubbornMiss.testDllExistsAfterBuild = false ∧
    (main envStubbornMiss ["build.py", "test"]).2 = 1 ∧
    (execs (main envStubbornMiss ["build.py", "test"]).1).countP isVstestCmd = 0 := by
  have h := test_dllStillMissing_fatal envStubbornMiss "build.py" [] rfl rfl rfl
  exact ⟨rfl, rfl, rfl, h.2.1, h.2.2.1⟩

/-- C7: with no argument after the program name, or with a first argument
that matches none of the five actions case-insensitively, the process
prints the usage text (plus an unknown-command message in the latter
case), exits with code 1, and launches no external process. -/
theorem usageError_exits_one (env : Env) (p s : String) (rest : List String)
    (h1 : pyLower s ≠ "build") (h2 : pyLower s ≠ "rebuild")
    (h3 : pyLower s ≠ "restore") (h4 : pyLower s ≠ "test")
    (h5 : pyLower s ≠ "run") :
    ((main env [p]).2 = 1 ∧ execs (main env [p]).1 = [] ∧
      popens (main env [p]).1 = [] ∧ Event.out USAGE ∈ (main env [p]).1) ∧
    ((main env (p :: s :: rest)).2 = 1 ∧
      execs (main env (p :: s :: rest)).1 = [] ∧
      popens (main env (p :: s :: rest)).1 = [] ∧
      Event.out ("Unknown command: " ++ pyLower s) ∈ (main env (p :: s :: rest)).1 ∧
      Event.out USAGE ∈ (main env (p :: s :: rest)).1) := by
  refine ⟨⟨?_, ?_, ?_, ?_⟩, ?_, ?_, ?_, ?_, ?_⟩ <;>
    simp [main, h1, h2, h3, h4, h5, execs, popens]

/-- Witness for C7 at a concrete input: the unrecognized action `"foo"`. -/
theorem usageError_exits_one_witness :
    pyLower "foo" ≠ "build" ∧ pyLower "foo" ≠ "run" ∧
    (main envTestReady ["build.py"]).2 = 1 ∧
    (main envTestReady ["build.py", "foo"]).2 = 1 ∧
    execs (main envTestReady ["build.py", "foo"]).1 = [] ∧
    Event.out ("Unknown command: " ++ pyLower "foo") ∈
      (main envTestReady ["build.py", "foo"]).1 := by
  have h := usageError_exits_one envTestReady "build.py" "foo" []
    (by decide) (by decide) (by decide) (by decide) (by decide)
  exact ⟨by decide, by decide, h.1.1, h.2.1, h.2.2.1, h.2.2.2.2.1⟩

/-- C8: dispatch is case-insensitive — dispatching any action string
behaves identically to dispatching its lowercase form; in particular
`BUILD`, `Build` and `build` route identically. -/
theorem dispatch_case_insensitive (env : Env) (p s : String) (rest : List String) :
    main env (p :: s :: rest) = main env (p :: pyLower s :: rest) ∧
    main env (p :: "BUILD" :: rest) = main env (p :: "build" :: rest) ∧
    main env (p :: "Build" :: rest) = main env (p :: "build" :: rest) := by
  refine ⟨?_, ?_, ?_⟩
  · simp only [main, pyLower_idem]
  · simp only [main, pyLower_upperBUILD, pyLower_build]
  · simp only [main, pyLower_mixedBuild, pyLower_build]

/-- C9: every external process execution — blocking runs and the detached
launch alike — uses the fixed repository root as its working directory,
for every environment and argument vector. -/
theorem workingDir_invariant (env : Env) (argv : List String)
    (a : List String) (d : String) :
    (Event.run a d ∈ (main env argv).1 → d = REPO_ROOT) ∧
    (Event.popen a d ∈ (main env argv).1 → d = REPO_ROOT) := by
  match argv with
  | [] => simp [main]
  | [p] => simp [main]
  | p :: s :: rest =>
    by_cases h1 : pyLower s = "build"
    · constructor <;> simp [main, h1, build, runCmd, finish]
    · by_cases h2 : pyLower s = "rebuild"
      · constructor <;> simp [main, h1, h2, rebuild, runCmd, finish]
      · by_cases h3 : pyLower s = "restore"
        · constructor <;> simp [main, h1, h2, h3, restore, runCmd, finish]
        · by_cases h4 : pyLower s = "test"
          · by_cases hd : env.testDllExists0 = false
            · by_cases hb : env.msbuildExit = 0
              · by_cases ha : env.testDllExistsAfterBuild = false
                · constructor <;>
                    simp [main, h1, h2, h3, h4, test, hd, hb, ha, build,
                      runCmd, finish, missingDllError]
                · constructor <;>
                    (simp [main, h1, h2, h3, h4, test, hd, hb, ha, build,
                      runCmd, finish] <;> tauto)
              · constructor <;>
                  simp [main, h1, h2, h3, h4, test, hd, hb, build, runCmd, finish]
            · rw [Bool.not_eq_false] at hd
              constructor <;>
                simp [main, h1, h2, h3, h4, test, hd, runCmd, finish]
          · by_cases h5 : pyLower s = "run"
            · by_cases he : env.exeExists0 = false
              · by_cases hb : env.msbuildExit = 0
                · constructor <;>
                    simp [main, h1, h2, h3, h4, h5, run_app, he, hb, build,
                      runCmd, finish]
                · constructor <;>
                    simp [main, h1, h2, h3, h4, h5, run_app, he, hb, build,
                      runCmd, finish]
              · rw [Bool.not_eq_false] at he
                constructor <;>
                  simp [main, h1, h2, h3, h4, h5, run_app, he, runCmd, finish]
            · constructor <;> simp [main, h1, h2, h3, h4, h5]

/-- Witness for C9 at a concrete input: the `run` action performs a
detached launch, and its recorded working directory is the repository
root. -/
theorem workingDir_invariant_witness :
    Event.popen [EXE_PATH] REPO_ROOT ∈ (main envTestReady ["build.py", "run"]).1 ∧
    REPO_ROOT = REPO_ROOT := by
  exact ⟨by decide,
    (workingDir_invariant envTestReady ["build.py", "run"] [EXE_PATH] REPO_ROOT).2
      (by decide)⟩

/-- C10: invoking `test` with an empty-string filter argument behaves
exactly like supplying no filter: the whole invocation coincides, the
constructed argument vectors coincide, and the default category filter
flag is the one appended. -/
theorem test_empty_filter_default (env : Env) (p : String) :
    main env [p, "test", ""] = main env [p, "test"] ∧
    testRunnerArgs (some "") = testRunnerArgs none ∧
    "--TestCaseFilter:FullyQualifiedName~VisualQueryPlan" ∈ testRunnerArgs (some "") := by
  refine ⟨?_, rfl, by decide⟩
  simp [main, pyLower_test, test, testRunnerArgs_empty_eq_none]

end BuildScript
